import Mathlib

/-!
Verification development for the collaborative whiteboard backend
(`src/index.js`).  The realtime relay, the room store operations and the
room-creation endpoint are embedded shallowly: connection handles and user
ids are naturals, the persistent store is a function from room code to an
optional room document, and the Socket.IO room adapter is a function from
room name to the list of live socket ids in that room.  Each Socket.IO
event handler becomes a pure function from server state (registry × store)
to new state together with the list of emitted messages, where an emitted
message is a pair of the receiving connection and the payload.
-/

namespace Whiteboard

/-- JavaScript `String.prototype.toUpperCase()`: uppercase every
character (per-character mapping; identical to Lean's `String.toUpper`
but defined by a structural list map so proofs can evaluate it). -/
def jsToUpper (s : String) : String := String.mk (s.data.map Char.toUpper)

/-- JavaScript `String.prototype.trim()`: remove leading and trailing
whitespace. -/
def jsTrim (s : String) : String :=
  String.mk (((s.data.dropWhile Char.isWhitespace).reverse.dropWhile
    Char.isWhitespace).reverse)

/-- Socket.IO socket ids, abstracted as naturals. -/
abbrev ConnId := Nat

/-- Mongo user ids, abstracted as naturals. -/
abbrev UserId := Nat

/-- Persisted room document, as constructed at `src/index.js:269-274`
(`new Room({ code, room_name, creator, members })`) and mutated by the
snapshot updates.  `canvasData` is a string; `""` stands for both the
empty string and an unset field, which the code never distinguishes (it
only tests truthiness at `src/index.js:430`). -/
structure Room where
  code : String
  room_name : String
  creator : UserId
  members : List UserId
  canvasData : String
deriving DecidableEq

/-- The persistent store keyed by room code: `Room.findOne({ code })`
returns `store code`. -/
abbrev Store := String → Option Room

/-- The Socket.IO room adapter (`io.sockets.adapter.rooms`): for each room
name the list of live sockets in it.  Room sets are modelled as
duplicate-free lists via an idempotent `socketJoin`. -/
abbrev Registry := String → List ConnId

/-- Fields of a `drawing-data` event other than the room code, exactly the
seven fields destructured and re-broadcast at `src/index.js:442-456`. -/
structure DrawPayload where
  prevX : Int
  prevY : Int
  currentX : Int
  currentY : Int
  color : String
  size : Int
  tool : String
deriving DecidableEq

/-- Messages the server emits to clients over the socket. -/
inductive ServerMsg where
  | canvasData (imageData : String)
  | drawingData (p : DrawPayload)
  | clearCanvas
deriving DecidableEq

/-- One emitted message: the receiving connection and the payload. -/
abbrev Emit := ConnId × ServerMsg

/-- Server state: the in-memory Socket.IO room adapter plus the persistent
room store. -/
structure SrvState where
  reg : Registry
  store : Store

/-- Outcome of an awaited store write (`Room.findOneAndUpdate`): the write
either succeeds or throws (connection loss, timeout); a throw is caught by
the handler's `catch` block, which only logs. -/
inductive PersistOutcome where
  | ok
  | failed
deriving DecidableEq

/-- Socket.IO `socket.join(room)`: add the socket to the room's set,
creating it if absent; a no-op when the socket is already a member. -/
def socketJoin (reg : Registry) (room : String) (conn : ConnId) : Registry :=
  fun r =>
    if r = room then
      if conn ∈ reg room then reg room else reg room ++ [conn]
    else reg r

/-- Socket.IO `socket.to(room).emit(msg)`: deliver `msg` to every socket
currently in `room` except the sending socket (the sender is always
excluded, whether or not it is a member of `room`). -/
def socketToEmit (reg : Registry) (room : String) (sender : ConnId) (msg : ServerMsg) :
    List Emit :=
  ((reg room).filter (fun c => c ≠ sender)).map (fun c => (c, msg))

/-- Socket.IO adapter cleanup on disconnect: the disconnected socket is
removed from every room set it belongs to.  The repository's own
`disconnect` handler (`src/index.js:508-510`) only logs. -/
def socketLeaveAll (reg : Registry) (conn : ConnId) : Registry :=
  fun r => (reg r).filter (fun c => c ≠ conn)

/-- Store write `Room.findOneAndUpdate({ code }, { canvasData }, { upsert:
false })` (`src/index.js:475-479`): update the `canvasData` field of the
matching room; when no room matches, the update is silently dropped. -/
def updateSnapshot (store : Store) (code imageData : String) : Store :=
  fun c =>
    if c = code then (store c).map (fun r => { r with canvasData := imageData })
    else store c

/-- The `join-room` handler (`src/index.js:418-437`): uppercase the raw
code (no trim), `socket.join` the uppercased room, then look the room up
in the store and, if it has truthy (non-empty) `canvasData`, emit a
`canvas-data` message back to the joining socket only. -/
def joinRoomH (st : SrvState) (conn : ConnId) (roomCode : String) :
    SrvState × List Emit :=
  let upperRoomCode := jsToUpper roomCode
  let reg := socketJoin st.reg upperRoomCode conn
  let emits :=
    match st.store upperRoomCode with
    | some roomData =>
        if roomData.canvasData ≠ "" then
          [(conn, ServerMsg.canvasData roomData.canvasData)]
        else []
    | none => []
  (⟨reg, st.store⟩, emits)

/-- A client `drawing-data` event: the room code plus the seven stroke
fields (`src/index.js:442`). -/
structure DrawMsg where
  roomCode : String
  prevX : Int
  prevY : Int
  currentX : Int
  currentY : Int
  color : String
  size : Int
  tool : String
deriving DecidableEq

/-- The `drawing-data` handler (`src/index.js:440-461`): uppercase the
message's room code and broadcast the seven stroke fields verbatim to the
room, excluding the sender.  No store access of any kind. -/
def drawingDataH (st : SrvState) (sender : ConnId) (d : DrawMsg) :
    SrvState × List Emit :=
  let upperRoomCode := jsToUpper d.roomCode
  (st, socketToEmit st.reg upperRoomCode sender
    (ServerMsg.drawingData
      ⟨d.prevX, d.prevY, d.currentX, d.currentY, d.color, d.size, d.tool⟩))

/-- The `canvas-data` handler (`src/index.js:463-485`): uppercase the
room code, broadcast `{ imageData }` to the room excluding the sender,
then (after the broadcast) persist the snapshot with `upsert: false`; a
store failure is caught and only logged. -/
def canvasDataH (st : SrvState) (sender : ConnId) (roomCode imageData : String)
    (persist : PersistOutcome) : SrvState × List Emit :=
  let upperRoomCode := jsToUpper roomCode
  let emits := socketToEmit st.reg upperRoomCode sender (ServerMsg.canvasData imageData)
  let store :=
    match persist with
    | .ok => updateSnapshot st.store upperRoomCode imageData
    | .failed => st.store
  (⟨st.reg, store⟩, emits)

/-- The `clear-canvas` handler (`src/index.js:487-506`): uppercase the
room code, broadcast a bare `clear-canvas` to the room excluding the
sender, then persist `canvasData = ""`; a store failure is caught and only
logged. -/
def clearCanvasH (st : SrvState) (sender : ConnId) (roomCode : String)
    (persist : PersistOutcome) : SrvState × List Emit :=
  let upperRoomCode := jsToUpper roomCode
  let emits := socketToEmit st.reg upperRoomCode sender ServerMsg.clearCanvas
  let store :=
    match persist with
    | .ok => updateSnapshot st.store upperRoomCode ""
    | .failed => st.store
  (⟨st.reg, store⟩, emits)

/-- The `disconnect` handler (`src/index.js:508-510`) together with the
Socket.IO adapter semantics of a disconnect: the socket leaves every room;
the handler body itself only logs, emits nothing, and touches no persisted
state. -/
def disconnectH (st : SrvState) (conn : ConnId) : SrvState × List Emit :=
  (⟨socketLeaveAll st.reg conn, st.store⟩, [])

/-- The code alphabet of `genRoomCode` (`src/index.js:48`). -/
def roomCodeChars : List Char := "ABCDEFGHIJKLMNOPQRSTUVWXYZ0123456789".toList

/-- `genRoomCode` (`src/index.js:47-54`): six iterations, each appending
`chars.charAt(Math.floor(Math.random() * chars.length))`.  Since
`Math.random()` lies in `[0, 1)` and `chars.length = 36`, each drawn index
lies in `0..35`; the random source is modelled as `rand : Nat → Fin 36`
giving the index drawn at each iteration. -/
def genRoomCode (rand : Nat → Fin 36) : String :=
  String.mk ((List.range 6).map (fun i => roomCodeChars.getD (rand i) 'A'))

/-- The unique-code generation loop of `/api/create-room`
(`src/index.js:253-258`): `do { code = genRoomCode(); existingRoom =
Room.findOne({ code: code.toUpperCase() }); attempts++ } while
(existingRoom && attempts < 10)`.  `gen i` is the code produced on the
iteration entered with `attempts = i`; the result is the final
`(code, existingRoom, attempts)`.  The `attempts < 10` guard bounds the
iteration count, so the structural `fuel` argument (10 at the call site)
is never exhausted; its base case returns the current iteration's values
exactly as a loop exit would. -/
def allocLoop (store : Store) (gen : Nat → String) : Nat → Nat → String × Option Room × Nat
  | i, 0 => (gen i, store (jsToUpper (gen i)), i + 1)
  | i, fuel + 1 =>
    let code := gen i
    let existingRoom := store (jsToUpper code)
    let attempts := i + 1
    if existingRoom.isSome ∧ attempts < 10 then allocLoop store gen attempts fuel
    else (code, existingRoom, attempts)

/-- The allocation performed by `/api/create-room`: run the loop from
`attempts = 0`. -/
def createRoomAlloc (store : Store) (gen : Nat → String) : String × Option Room × Nat :=
  allocLoop store gen 0 10

/-- HTTP result of `/api/create-room`, restricted to what the claims
need: the 400 validation rejection, the 500 exhaustion error, and the 201
body's `roomCode` and `roomName` fields. -/
inductive CreateResult where
  | badRequest (msg : String)
  | serverError (msg : String)
  | created (roomCode roomName : String)
deriving DecidableEq

/-- The `/api/create-room` handler (`src/index.js:234-296`): reject when
`roomName` is missing or trims to empty; run the code-generation loop;
fail with 500 when the final lookup still found a room; otherwise insert
the new room under the uppercased code with `room_name = roomName.trim()`
and members `[userId]`, and respond with the code and the trimmed name. -/
def createRoomHandler (store : Store) (gen : Nat → String) (userId : UserId)
    (roomName : Option String) : CreateResult × Store :=
  match roomName with
  | none => (.badRequest "Room name is required", store)
  | some name =>
    if jsTrim name = "" then (.badRequest "Room name is required", store)
    else
      let r := allocLoop store gen 0 10
      let code := r.1
      let existingRoom := r.2.1
      if existingRoom.isSome then
        (.serverError "Failed to generate unique room code", store)
      else
        let finalCode := jsToUpper code
        let room : Room :=
          { code := finalCode, room_name := jsTrim name, creator := userId
            members := [userId], canvasData := "" }
        (.created finalCode (jsTrim name),
          fun c => if c = finalCode then some room else store c)

/-- The member-add of `/api/verify-room` (`src/index.js:337-345`): `if
(!room.members.includes(userId)) { room.members.push(userId); ... }`. -/
def addMember (members : List UserId) (userId : UserId) : List UserId :=
  if userId ∈ members then members else members ++ [userId]

/-- The empty Socket.IO adapter (fresh process, no socket in any room). -/
def emptyReg : Registry := fun _ => []

/-- The empty store (no room persisted). -/
def emptyStore : Store := fun _ => none

/-- Sample registry: sockets 1 and 2 are in room `"C"`. -/
def regC : Registry := fun r => if r = "C" then [1, 2] else []

/-- Sample persisted room under code `"ROOM1"` with no canvas data yet. -/
def room1 : Room :=
  { code := "ROOM1", room_name := "r", creator := 0, members := [0], canvasData := "" }

/-- Sample store holding exactly `room1`. -/
def store1 : Store := fun c => if c = "ROOM1" then some room1 else none

/-- Sample store in which every code is taken (worst case for allocation). -/
def fullStore : Store := fun _ => some room1

/-- Sample deterministic generator output. -/
def genA : Nat → String := fun _ => "ABC123"

/-- Registry obtained from the empty one after socket 1 joins `"R"`;
socket 0 has never joined any room. -/
def joinedReg : Registry := (joinRoomH ⟨emptyReg, emptyStore⟩ 1 "R").1.reg

/-- Sample drawing message for room `"R"`, the payload of the spec's
two-connection scenario. -/
def dmsgR : DrawMsg := ⟨"R", 0, 0, 10, 10, "#000", 2, "pen"⟩

section Lemmas

/-- Membership in a `socket.to(room).emit` delivery list. -/
lemma socketToEmit_mem {reg : Registry} {room : String} {sender c : ConnId}
    {m msg : ServerMsg} :
    (c, m) ∈ socketToEmit reg room sender msg ↔
      c ∈ reg room ∧ c ≠ sender ∧ m = msg := by
  simp only [socketToEmit, List.mem_map, List.mem_filter, Prod.mk.injEq,
    decide_eq_true_eq]
  constructor
  · rintro ⟨a, ⟨ha, hne⟩, rfl, rfl⟩
    exact ⟨ha, hne, rfl⟩
  · rintro ⟨hc, hne, rfl⟩
    exact ⟨c, ⟨hc, hne⟩, rfl, rfl⟩

/-- A disconnected socket belongs to no room set. -/
lemma socketLeaveAll_not_mem (reg : Registry) (conn : ConnId) (room : String) :
    conn ∉ socketLeaveAll reg conn room := by
  simp [socketLeaveAll]

end Lemmas

/-- Claim C5: the member-add performed by verify-room is idempotent — a
no-op when the user id is already a member, an append of a single copy
otherwise, and applying it twice equals applying it once. -/
theorem C5_addMember_idempotent (ms : List UserId) (u : UserId) :
    (u ∈ ms → addMember ms u = ms) ∧
      (u ∉ ms → addMember ms u = ms ++ [u]) ∧
      addMember (addMember ms u) u = addMember ms u := by
  refine ⟨fun h => by simp [addMember, h], fun h => by simp [addMember, h], ?_⟩
  by_cases h : u ∈ ms
  · simp [addMember, h]
  · simp [addMember, h]

/-- Witness for C5 at concrete member lists. -/
theorem C5_addMember_idempotent_witness :
    addMember (addMember [7] 5) 5 = addMember [7] 5 ∧ addMember [5] 5 = [5] :=
  ⟨(C5_addMember_idempotent [7] 5).2.2, (C5_addMember_idempotent [5] 5).1 (by decide)⟩

/-- Claim C9: every output of the room-code generator is a string of
length exactly 6 whose characters all belong to the 36-symbol alphabet
`[A-Z0-9]`. -/
theorem C9_genRoomCode_shape (rand : Nat → Fin 36) :
    (genRoomCode rand).length = 6 ∧
      ∀ c, c ∈ (genRoomCode rand).toList → c ∈ roomCodeChars := by
  constructor
  · simp [genRoomCode, String.length]
  · intro c hc
    simp only [genRoomCode, String.toList, List.mem_map, List.mem_range] at hc
    obtain ⟨i, _, rfl⟩ := hc
    have hlen : (rand i : Nat) < roomCodeChars.length := by
      have : roomCodeChars.length = 36 := by decide
      omega
    rw [List.getD_eq_getElem?_getD, List.getElem?_eq_getElem hlen, Option.getD_some]
    exact List.getElem_mem hlen

/-- Witness for C9 at a concrete random source. -/
theorem C9_genRoomCode_shape_witness :
    (genRoomCode (fun _ => (0 : Fin 36))).length = 6 ∧ 'A' ∈ roomCodeChars :=
  ⟨(C9_genRoomCode_shape (fun _ => (0 : Fin 36))).1,
    (C9_genRoomCode_shape (fun _ => (0 : Fin 36))).2 'A' (by decide)⟩

/-- Claim C3: a drawing-data event for room R is delivered with its seven
fields verbatim to every other connection in R, never echoed back to the
sender, and leaves all server state (registry and store) unchanged. -/
theorem C3_drawing_relay (st : SrvState) (sender : ConnId) (d : DrawMsg) :
    (∀ c, c ∈ st.reg (jsToUpper d.roomCode) → c ≠ sender →
        (c, ServerMsg.drawingData
            ⟨d.prevX, d.prevY, d.currentX, d.currentY, d.color, d.size, d.tool⟩) ∈
          (drawingDataH st sender d).2) ∧
      (∀ m, (sender, m) ∉ (drawingDataH st sender d).2) ∧
      (drawingDataH st sender d).1 = st := by
  refine ⟨?_, ?_, rfl⟩
  · intro c hc hne
    exact socketToEmit_mem.mpr ⟨hc, hne, rfl⟩
  · intro m hm
    rcases socketToEmit_mem.mp hm with ⟨_, hne, _⟩
    exact hne rfl

/-- Witness for C3: the spec's two-connection scenario — sender 1 in room
C draws; socket 2 receives the exact payload, socket 1 receives nothing. -/
theorem C3_drawing_relay_witness :
    (2, ServerMsg.drawingData ⟨0, 0, 10, 10, "#000", 2, "pen"⟩) ∈
        (drawingDataH ⟨regC, emptyStore⟩ 1 ⟨"C", 0, 0, 10, 10, "#000", 2, "pen"⟩).2 ∧
      (1, ServerMsg.drawingData ⟨0, 0, 10, 10, "#000", 2, "pen"⟩) ∉
        (drawingDataH ⟨regC, emptyStore⟩ 1 ⟨"C", 0, 0, 10, 10, "#000", 2, "pen"⟩).2 :=
  ⟨(C3_drawing_relay ⟨regC, emptyStore⟩ 1 ⟨"C", 0, 0, 10, 10, "#000", 2, "pen"⟩).1 2
      (by decide) (by decide),
    (C3_drawing_relay ⟨regC, emptyStore⟩ 1 ⟨"C", 0, 0, 10, 10, "#000", 2, "pen"⟩).2.1
      (ServerMsg.drawingData ⟨0, 0, 10, 10, "#000", 2, "pen"⟩)⟩

/-- Claim C8: disconnect removes the connection from every room set, so
it appears in no peer set and receives no further drawing, canvas or
clear broadcasts; it emits no message to any peer; and it leaves the
persisted store unchanged. -/
theorem C8_disconnect_frame (st : SrvState) (conn : ConnId) (room : String)
    (sender : ConnId) (d : DrawMsg) (m : ServerMsg) (roomCode imageData : String)
    (o : PersistOutcome) :
    conn ∉ (disconnectH st conn).1.reg room ∧
      (disconnectH st conn).2 = [] ∧
      (disconnectH st conn).1.store = st.store ∧
      (conn, m) ∉ (drawingDataH (disconnectH st conn).1 sender d).2 ∧
      (conn, m) ∉ (canvasDataH (disconnectH st conn).1 sender roomCode imageData o).2 ∧
      (conn, m) ∉ (clearCanvasH (disconnectH st conn).1 sender roomCode o).2 := by
  refine ⟨socketLeaveAll_not_mem _ _ _, rfl, rfl, ?_, ?_, ?_⟩ <;>
    · intro hm
      rcases socketToEmit_mem.mp hm with ⟨hc, -, -⟩
      exact socketLeaveAll_not_mem _ _ _ hc

/-- Witness for C8 at a concrete state: socket 1 disconnects from room C. -/
theorem C8_disconnect_frame_witness :
    1 ∉ (disconnectH ⟨regC, store1⟩ 1).1.reg "C" ∧
      (disconnectH ⟨regC, store1⟩ 1).2 = [] ∧
      (disconnectH ⟨regC, store1⟩ 1).1.store = store1 ∧
      (1, ServerMsg.drawingData ⟨0, 0, 10, 10, "#000", 2, "pen"⟩) ∉
        (drawingDataH (disconnectH ⟨regC, store1⟩ 1).1 2 dmsgR).2 ∧
      (1, ServerMsg.drawingData ⟨0, 0, 10, 10, "#000", 2, "pen"⟩) ∉
        (canvasDataH (disconnectH ⟨regC, store1⟩ 1).1 2 "C" "X" .ok).2 ∧
      (1, ServerMsg.drawingData ⟨0, 0, 10, 10, "#000", 2, "pen"⟩) ∉
        (clearCanvasH (disconnectH ⟨regC, store1⟩ 1).1 2 "C" .ok).2 :=
  C8_disconnect_frame ⟨regC, store1⟩ 1 "C" 2 dmsgR
    (ServerMsg.drawingData ⟨0, 0, 10, 10, "#000", 2, "pen"⟩) "C" "X" .ok

/-- Claim C6: the broadcast of a canvas-data or clear-canvas message does
not depend on the store contents or on the persistence outcome; on a
failed persistence nothing beyond the ordinary broadcast is emitted (in
particular no error reaches any client, and nothing reaches the sender)
and the store is left unchanged. -/
theorem C6_persistence_isolated (reg : Registry) (store₁ store₂ : Store)
    (sender : ConnId) (roomCode imageData : String) (o₁ o₂ : PersistOutcome) :
    (canvasDataH ⟨reg, store₁⟩ sender roomCode imageData o₁).2 =
        (canvasDataH ⟨reg, store₂⟩ sender roomCode imageData o₂).2 ∧
      (clearCanvasH ⟨reg, store₁⟩ sender roomCode o₁).2 =
        (clearCanvasH ⟨reg, store₂⟩ sender roomCode o₂).2 ∧
      (∀ c m, (c, m) ∈ (canvasDataH ⟨reg, store₁⟩ sender roomCode imageData .failed).2 →
        m = ServerMsg.canvasData imageData ∧ c ≠ sender) ∧
      (∀ c m, (c, m) ∈ (clearCanvasH ⟨reg, store₁⟩ sender roomCode .failed).2 →
        m = ServerMsg.clearCanvas ∧ c ≠ sender) ∧
      (canvasDataH ⟨reg, store₁⟩ sender roomCode imageData .failed).1.store = store₁ ∧
      (clearCanvasH ⟨reg, store₁⟩ sender roomCode .failed).1.store = store₁ := by
  refine ⟨rfl, rfl, ?_, ?_, rfl, rfl⟩ <;>
    · intro c m hm
      rcases socketToEmit_mem.mp hm with ⟨-, hne, hmsg⟩
      exact ⟨hmsg, hne⟩

/-- Witness for C6: same broadcast under success with one store as under
failure with another, and the failed broadcast carries only the ordinary
payload to a non-sender peer. -/
theorem C6_persistence_isolated_witness :
    (canvasDataH ⟨regC, store1⟩ 1 "c" "X" .ok).2 =
        (canvasDataH ⟨regC, emptyStore⟩ 1 "c" "X" .failed).2 ∧
      (ServerMsg.canvasData "X" = ServerMsg.canvasData "X" ∧ (2 : ConnId) ≠ 1) :=
  ⟨(C6_persistence_isolated regC store1 emptyStore 1 "c" "X" .ok .failed).1,
    (C6_persistence_isolated regC store1 emptyStore 1 "c" "X" .ok .failed).2.2.1 2
      (ServerMsg.canvasData "X") (by decide)⟩

/-- Counterexample to claim C7 as stated: socket 0 has never joined any
room (only socket 1 ever joined, entering room R), yet when socket 0
sends drawing-data for R the message is delivered to socket 1 — the
handler never checks the sender's membership. -/
theorem C7_counterexample :
    joinedReg "R" = [1] ∧ (0 : ConnId) ∉ joinedReg "R" ∧
      (drawingDataH ⟨joinedReg, emptyStore⟩ 0 dmsgR).2 =
        [(1, ServerMsg.drawingData ⟨0, 0, 10, 10, "#000", 2, "pen"⟩)] := by
  decide

/-- Claim C7 (amended): a drawing-data message from a connection that is
in no room changes no server state, and is relayed to exactly the
connections in the room named by the message; only when that room is
empty does no connection receive anything. -/
theorem C7_never_joined_relay (st : SrvState) (sender : ConnId) (d : DrawMsg)
    (h : ∀ room, sender ∉ st.reg room) :
    (drawingDataH st sender d).1 = st ∧
      (drawingDataH st sender d).2 =
        (st.reg (jsToUpper d.roomCode)).map
          (fun c => (c, ServerMsg.drawingData
            ⟨d.prevX, d.prevY, d.currentX, d.currentY, d.color, d.size, d.tool⟩)) := by
  refine ⟨rfl, ?_⟩
  show socketToEmit _ _ _ _ = _
  unfold socketToEmit
  rw [List.filter_eq_self.mpr]
  intro a ha
  exact decide_eq_true (fun e => h (jsToUpper d.roomCode) (e ▸ ha))

/-- Witness for C7 (amended): never-joined socket 0 sends drawing-data
for R; state is unchanged and the event goes to every member of R. -/
theorem C7_never_joined_relay_witness :
    (drawingDataH ⟨joinedReg, emptyStore⟩ 0 dmsgR).1 =
        (⟨joinedReg, emptyStore⟩ : SrvState) ∧
      (drawingDataH ⟨joinedReg, emptyStore⟩ 0 dmsgR).2 =
        (joinedReg (jsToUpper "R")).map
          (fun c => (c, ServerMsg.drawingData ⟨0, 0, 10, 10, "#000", 2, "pen"⟩)) :=
  C7_never_joined_relay ⟨joinedReg, emptyStore⟩ 0 dmsgR (by
    intro room
    simp only [joinedReg, joinRoomH, socketJoin, emptyReg, emptyStore]
    split <;> simp)

/-- Counterexample to claim C1 as stated: the join-room handler
uppercases but does not trim, so a join with raw code `" abc123 "` is
registered under `" ABC123 "`, not under the trimmed-and-uppercased
`"ABC123"` — a join with `" abc123 "` and a join with `"ABC123"` land in
different rooms. -/
theorem C1_counterexample :
    jsToUpper (jsTrim " abc123 ") = "ABC123" ∧
      (joinRoomH ⟨emptyReg, emptyStore⟩ 0 " abc123 ").1.reg "ABC123" = [] ∧
      (joinRoomH ⟨emptyReg, emptyStore⟩ 0 " abc123 ").1.reg " ABC123 " = [0] := by
  decide

/-- Claim C1 (amended): every socket handler normalizes the raw room code
by uppercasing only (no trim), and applies that normalization uniformly —
the registration key of join-room is the uppercased raw code, and any two
raw codes equal after uppercasing produce identical join, drawing,
canvas-sync and clear behavior (so `"abc123"` and `"ABC123"` land in the
same room, while `" abc123 "` does not). -/
theorem C1_uppercase_only_normalization (st : SrvState) (conn sender : ConnId)
    (r₁ r₂ : String) (h : jsToUpper r₁ = jsToUpper r₂) :
    conn ∈ (joinRoomH st conn r₁).1.reg (jsToUpper r₁) ∧
      joinRoomH st conn r₁ = joinRoomH st conn r₂ ∧
      (∀ d : DrawMsg, drawingDataH st sender { d with roomCode := r₁ } =
        drawingDataH st sender { d with roomCode := r₂ }) ∧
      (∀ imageData o, canvasDataH st sender r₁ imageData o =
        canvasDataH st sender r₂ imageData o) ∧
      (∀ o, clearCanvasH st sender r₁ o = clearCanvasH st sender r₂ o) := by
  refine ⟨?_, by simp [joinRoomH, h], fun d => by simp [drawingDataH, h],
    fun imageData o => by simp [canvasDataH, h], fun o => by simp [clearCanvasH, h]⟩
  show conn ∈ socketJoin st.reg (jsToUpper r₁) conn (jsToUpper r₁)
  unfold socketJoin
  rw [if_pos rfl]
  split
  · assumption
  · simp

/-- Witness for C1 (amended): codes `"abc123"` and `"ABC123"` behave
identically, and the joining socket is registered under the uppercased
code. -/
theorem C1_uppercase_only_normalization_witness :
    0 ∈ (joinRoomH ⟨emptyReg, emptyStore⟩ 0 "abc123").1.reg (jsToUpper "abc123") ∧
      joinRoomH ⟨emptyReg, emptyStore⟩ 0 "abc123" =
        joinRoomH ⟨emptyReg, emptyStore⟩ 0 "ABC123" ∧
      canvasDataH ⟨emptyReg, emptyStore⟩ 1 "abc123" "X" .ok =
        canvasDataH ⟨emptyReg, emptyStore⟩ 1 "ABC123" "X" .ok := by
  have h := C1_uppercase_only_normalization ⟨emptyReg, emptyStore⟩ 0 1 "abc123" "ABC123"
    (by decide)
  exact ⟨h.1, h.2.1, h.2.2.2.1 "X" .ok⟩

/-- Claim C2: once a canvas-data snapshot X for room R is persisted, a
connection joining R receives exactly one canvas-data message with
imageData X addressed to itself (provided X is non-empty — the snapshot
is sent only when present and non-empty); once a clear-canvas for R is
persisted, a join to R receives no canvas-data message. -/
theorem C2_snapshot_roundtrip (st : SrvState) (reg₂ reg₃ : Registry)
    (sender conn : ConnId) (roomCode imageData : String) (room : Room)
    (h : st.store (jsToUpper roomCode) = some room) :
    (imageData ≠ "" →
        (joinRoomH ⟨reg₂, (canvasDataH st sender roomCode imageData .ok).1.store⟩
            conn roomCode).2 = [(conn, ServerMsg.canvasData imageData)]) ∧
      (joinRoomH ⟨reg₃, (clearCanvasH st sender roomCode .ok).1.store⟩
        conn roomCode).2 = [] := by
  have h1 : (canvasDataH st sender roomCode imageData .ok).1.store (jsToUpper roomCode)
      = some { room with canvasData := imageData } := by
    simp [canvasDataH, updateSnapshot, h]
  have h2 : (clearCanvasH st sender roomCode .ok).1.store (jsToUpper roomCode)
      = some { room with canvasData := "" } := by
    simp [clearCanvasH, updateSnapshot, h]
  constructor
  · intro hne
    simp [joinRoomH, h1, hne]
  · simp [joinRoomH, h2]

/-- Witness for C2 at a concrete store: room ROOM1 exists; after a
canvas-data "X" for "room1" a joiner of "room1" gets "X"; after a
clear-canvas the joiner gets nothing. -/
theorem C2_snapshot_roundtrip_witness :
    (joinRoomH ⟨emptyReg, (canvasDataH ⟨emptyReg, store1⟩ 0 "room1" "X" .ok).1.store⟩
        1 "room1").2 = [(1, ServerMsg.canvasData "X")] ∧
      (joinRoomH ⟨emptyReg, (clearCanvasH ⟨emptyReg, store1⟩ 0 "room1" .ok).1.store⟩
        1 "room1").2 = [] := by
  have h := C2_snapshot_roundtrip ⟨emptyReg, store1⟩ emptyReg emptyReg 0 1 "room1" "X"
    room1 (by decide)
  exact ⟨h.1 (by decide), h.2⟩

section AllocLemmas

/-- The existing-room value returned by the allocation loop is exactly the
store lookup of the uppercased returned code. -/
lemma allocLoop_check (store : Store) (gen : Nat → String) :
    ∀ fuel i, (allocLoop store gen i fuel).2.1 =
      store (jsToUpper (allocLoop store gen i fuel).1) := by
  intro fuel
  induction fuel with
  | zero => intro i; rfl
  | succ fuel ih =>
    intro i
    simp only [allocLoop]
    split
    · exact ih (i + 1)
    · rfl

/-- The attempt counter of the allocation loop never exceeds
`max (i + 1) 10`. -/
lemma allocLoop_attempts_le (store : Store) (gen : Nat → String) :
    ∀ fuel i, (allocLoop store gen i fuel).2.2 ≤ max (i + 1) 10 := by
  intro fuel
  induction fuel with
  | zero => intro i; simp [allocLoop]
  | succ fuel ih =>
    intro i
    simp only [allocLoop]
    split
    · have h1 := ih (i + 1)
      have h2 : i + 1 < 10 := by
        rename_i hcond
        exact hcond.2
      omega
    · simp

/-- When every generated code collides, the loop terminates with a
still-existing room. -/
lemma allocLoop_exhausted (store : Store) (gen : Nat → String) :
    ∀ fuel i, 10 ≤ i + 1 + fuel → i < 10 →
      (∀ j, j < 10 → (store (jsToUpper (gen j))).isSome) →
      ((allocLoop store gen i fuel).2.1).isSome := by
  intro fuel
  induction fuel with
  | zero =>
    intro i _ hi hall
    simpa [allocLoop] using hall i hi
  | succ fuel ih =>
    intro i hf hi hall
    simp only [allocLoop]
    split
    · rename_i hcond
      exact ih (i + 1) (by omega) hcond.2 hall
    · simpa using hall i hi

end AllocLemmas

/-- Claim C4: unique-code allocation makes at most 10 attempts, each one
a case-normalized find-by-code; a successful creation returns a code whose
existence check found no room; and when all 10 attempts collide the
request fails with the retryable 500 error and the store is unchanged (no
room is created). -/
theorem C4_alloc_bounded (store : Store) (gen : Nat → String) (userId : UserId)
    (name : String) :
    (createRoomAlloc store gen).2.2 ≤ 10 ∧
      (∀ c n, (createRoomHandler store gen userId (some name)).1 =
          CreateResult.created c n → store c = none) ∧
      (jsTrim name ≠ "" → (∀ j, j < 10 → (store (jsToUpper (gen j))).isSome) →
        createRoomHandler store gen userId (some name) =
          (.serverError "Failed to generate unique room code", store)) := by
  refine ⟨?_, ?_, ?_⟩
  · have h := allocLoop_attempts_le store gen 10 0
    simpa [createRoomAlloc] using h
  · intro c n h
    by_cases hname : jsTrim name = ""
    · simp [createRoomHandler, hname] at h
    · by_cases hex : ((allocLoop store gen 0 10).2.1).isSome
      · simp [createRoomHandler, hname, hex] at h
      · have hchk := allocLoop_check store gen 10 0
        rw [Option.not_isSome_iff_eq_none] at hex
        have h1 : (createRoomHandler store gen userId (some name)).1 =
            CreateResult.created (jsToUpper (allocLoop store gen 0 10).1) (jsTrim name) := by
          simp [createRoomHandler, hname, hex]
        rw [h1] at h
        injection h with hc hn
        rw [hchk] at hex
        rw [← hc]
        exact hex
  · intro hname hall
    have hex := allocLoop_exhausted store gen 10 0 (by omega) (by omega) hall
    simp [createRoomHandler, hname, hex]

/-- Witness for C4: with an empty store the first attempt succeeds and
the created code was free; with a full store all attempts collide and the
handler returns the 500 error leaving the store unchanged. -/
theorem C4_alloc_bounded_witness :
    (createRoomAlloc emptyStore genA).2.2 ≤ 10 ∧
      emptyStore "ABC123" = none ∧
      createRoomHandler fullStore genA 0 (some "Team Sync") =
        (.serverError "Failed to generate unique room code", fullStore) :=
  ⟨(C4_alloc_bounded emptyStore genA 0 "Team Sync").1,
    (C4_alloc_bounded emptyStore genA 0 "Team Sync").2.1 "ABC123" "Team Sync" (by decide),
    (C4_alloc_bounded fullStore genA 0 "Team Sync").2.2 (by decide) (fun j _ => rfl)⟩

/-- Claim C10: create-room trims the room name — a missing or
whitespace-only name is rejected with the validation error and creates no
room, and an accepted request persists and echoes the trimmed name. -/
theorem C10_roomName_trimmed (store : Store) (gen : Nat → String) (userId : UserId)
    (roomName : Option String) :
    ((roomName = none ∨ ∃ s, roomName = some s ∧ jsTrim s = "") →
        createRoomHandler store gen userId roomName =
          (.badRequest "Room name is required", store)) ∧
      (∀ s c n, roomName = some s →
        (createRoomHandler store gen userId roomName).1 = CreateResult.created c n →
        n = jsTrim s ∧
          ∃ room, (createRoomHandler store gen userId roomName).2 c = some room ∧
            room.room_name = jsTrim s) := by
  constructor
  · rintro (rfl | ⟨s, rfl, hs⟩)
    · rfl
    · simp [createRoomHandler, hs]
  · intro s c n hs h
    subst hs
    by_cases hname : jsTrim s = ""
    · simp [createRoomHandler, hname] at h
    · by_cases hex : ((allocLoop store gen 0 10).2.1).isSome
      · simp [createRoomHandler, hname, hex] at h
      · rw [Option.not_isSome_iff_eq_none] at hex
        have h1 : (createRoomHandler store gen userId (some s)).1 =
            CreateResult.created (jsToUpper (allocLoop store gen 0 10).1) (jsTrim s) := by
          simp [createRoomHandler, hname, hex]
        rw [h1] at h
        injection h with hc hn
        refine ⟨hn.symm, ?_⟩
        have h2 : (createRoomHandler store gen userId (some s)).2
            (jsToUpper (allocLoop store gen 0 10).1) =
            some { code := jsToUpper (allocLoop store gen 0 10).1, room_name := jsTrim s,
                   creator := userId, members := [userId], canvasData := "" } := by
          simp [createRoomHandler, hname, hex]
        rw [← hc]
        exact ⟨_, h2, rfl⟩

/-- Witness for C10: a whitespace-only name is rejected without touching
the store; an accepted padded name is persisted and echoed trimmed. -/
theorem C10_roomName_trimmed_witness :
    createRoomHandler emptyStore genA 0 (some "   ") =
        (.badRequest "Room name is required", emptyStore) ∧
      ("Team Sync" = jsTrim "  Team Sync " ∧
        ∃ room, (createRoomHandler emptyStore genA 0 (some "  Team Sync ")).2 "ABC123" =
            some room ∧ room.room_name = jsTrim "  Team Sync ") :=
  ⟨(C10_roomName_trimmed emptyStore genA 0 (some "   ")).1
      (Or.inr ⟨"   ", rfl, by decide⟩),
    (C10_roomName_trimmed emptyStore genA 0 (some "  Team Sync ")).2 "  Team Sync "
      "ABC123" "Team Sync" rfl (by decide)⟩

end Whiteboard
